import Mathlib

/-!
Verification development for the realtime presence and fan-out gateway of the
corp_server chat backend (src/core/sockets/socket.service.ts,
socket.middleware.ts, socket.handlers.ts and the full handler file that also
contains handleMessageNew).

The embedding is shallow: the in-memory registry (two JS Maps and per-user JS
Sets) becomes association lists over String keys and Finset String, handlers
become pure functions from their inputs (socket user, event data, database
lookup results, an optional thrown database error) to the list of socket.io
emissions they perform, and timestamps (new Date()) become Nat parameters.
Database state (prisma chatParticipant / chat tables) is passed in as simple
lists; a prisma call that throws is modelled by an Option String parameter
carrying the error message.

The event-name and error-code constants live in socket.types.ts, which is not
part of the available sources; their string values are modelled from the spec
(status:online, status:offline, typing:start, typing:end, error, and the codes
UNAUTHORIZED, NOT_PARTICIPANT, CHAT_NOT_FOUND, INTERNAL_ERROR).
-/

/-- The decoded user attached to a socket by the authentication middleware
(socket.middleware.ts, socket.user). -/
structure User where
  id : String
  email : String
  username : String
deriving DecidableEq, Repr

/-- The payload jwt.verify returns in SocketMiddleware.authenticate. -/
structure TokenPayload where
  id : String
  email : String
  username : String
  iat : Nat
  exp : Nat
deriving DecidableEq, Repr

/-- UserStatus record from socket.types, as used by SocketService:
userId, status string, the Set of live socket ids, lastSeen timestamp. -/
structure UserStatus where
  userId : String
  status : String
  socketIds : Finset String
  lastSeen : Nat
deriving DecidableEq

/-- Lookup in an association list, first binding wins (JS Map.get). -/
def getKey {β : Type} (k : String) : List (String × β) → Option β
  | [] => none
  | p :: rest => if p.1 = k then some p.2 else getKey k rest

/-- Remove every binding of a key (JS Map.delete). -/
def delKey {β : Type} (k : String) : List (String × β) → List (String × β)
  | [] => []
  | p :: rest => if p.1 = k then delKey k rest else p :: delKey k rest

/-- Set the binding of a key (JS Map.set). -/
def setKey {β : Type} (k : String) (v : β) (m : List (String × β)) :
    List (String × β) :=
  (k, v) :: delKey k m

/-- In-memory state of SocketService: the userStatuses map (userId to
UserStatus) and the socketUserMap (socketId to userId). -/
structure SocketService where
  userStatuses : List (String × UserStatus)
  socketUserMap : List (String × String)
deriving DecidableEq

/-- A freshly constructed SocketService: both maps empty. -/
def SocketService.init : SocketService := ⟨[], []⟩

/-- socket.io room state: each entry maps a room name to the set of socket ids
joined to it. -/
abbrev Rooms := List (String × Finset String)

/-- socket.join(room): add the socket id to the room, creating the room entry
when absent. -/
def joinRoom (rooms : Rooms) (sid room : String) : Rooms :=
  if rooms.any (fun p => p.1 = room) then
    rooms.map (fun p => if p.1 = room then (p.1, insert sid p.2) else p)
  else
    rooms ++ [(room, {sid})]

/-- socket.leave(room): remove the socket id from the room. -/
def leaveRoom (rooms : Rooms) (sid room : String) : Rooms :=
  rooms.map (fun p => if p.1 = room then (p.1, p.2.erase sid) else p)

/-- Whether a socket id is currently joined to a room. -/
def inRoom (rooms : Rooms) (sid room : String) : Bool :=
  rooms.any (fun p => p.1 = room && sid ∈ p.2)

/-- Event payloads carried by the emissions the gateway performs.  Only the
fields the verified properties inspect are kept; timestamp fields (new Date())
are dropped. -/
inductive Payload where
  /-- status events: userId and status string. -/
  | status (userId statusValue : String)
  /-- authenticated event: userId, username, socketId. -/
  | auth (userId username socketId : String)
  /-- typing events: chatId and the optional user id (socket.user?.id). -/
  | typing (chatId : String) (userId : Option String)
  /-- error events: code and message. -/
  | err (code message : String)
  /-- message:created payload: message id, chatId, senderId, content. -/
  | message (id chatId senderId content : String)
  /-- chat:updated payload: chat id and the id of its lastMessage. -/
  | chatUpdated (chatId lastMessageId : String)
  /-- subscribed:chat acknowledgement payload. -/
  | subscribed (chatId : String)
deriving DecidableEq

/-- One outbound action of the gateway. toSocket is socket.emit / io.to(sid),
toRoomExceptSender is socket.to(room).emit (room broadcast excluding the
sender), toAll is io.emit (every connected socket), disconnect is
socket.disconnect - included so that we can state that handlers never
disconnect a session. -/
inductive Emission where
  | toSocket (sid : String) (event : String) (p : Payload)
  | toRoomExceptSender (room sender : String) (event : String) (p : Payload)
  | toAll (event : String) (p : Payload)
  | disconnect (sid : String)
deriving DecidableEq

/-- Modelled from the spec: event-name constants of the missing
socket.types.ts. -/
def SocketEvents.USER_ONLINE : String := "status:online"

/-- Modelled from the spec: the status:offline event name. -/
def SocketEvents.USER_OFFLINE : String := "status:offline"

/-- Modelled from the spec: the general status-change event name. -/
def SocketEvents.USER_STATUS_CHANGE : String := "status:change"

/-- Modelled from the spec: the authenticated event name. -/
def SocketEvents.AUTHENTICATED : String := "authenticated"

/-- Modelled from the spec: the typing:start event name. -/
def SocketEvents.TYPING_START : String := "typing:start"

/-- Modelled from the spec: the typing:end event name. -/
def SocketEvents.TYPING_END : String := "typing:end"

/-- Modelled from the spec: the error event name. -/
def SocketEvents.ERROR : String := "error"

/-- Modelled from the spec: error code for unauthenticated operations. -/
def SocketErrorCodes.UNAUTHORIZED : String := "UNAUTHORIZED"

/-- Modelled from the spec: error code for room-authorization failures. -/
def SocketErrorCodes.NOT_PARTICIPANT : String := "NOT_PARTICIPANT"

/-- Modelled from the spec: error code for unexpected dependency failures. -/
def SocketErrorCodes.INTERNAL_ERROR : String := "INTERNAL_ERROR"

/-- Modelled from the spec: error code when the referenced chat is missing. -/
def SocketErrorCodes.CHAT_NOT_FOUND : String := "CHAT_NOT_FOUND"

/-- SocketHandlers.emitError: socket.emit(error, {code, message}). -/
def errEmission (sid code message : String) : Emission :=
  Emission.toSocket sid SocketEvents.ERROR (Payload.err code message)

/-- Room name for a chat (chat:{chatId}). -/
def chatRoom (chatId : String) : String := "chat:" ++ chatId

/-- Room name for a user's personal channel (user:{userId}). -/
def userRoom (userId : String) : String := "user:" ++ userId

/-- Whether an emission is delivered to a given target socket, given the
current room state: direct emit hits its socket, a room broadcast via
socket.to hits every room member except the sender, io.emit hits everyone. -/
def deliversTo (rooms : Rooms) (e : Emission) (target : String) : Bool :=
  match e with
  | Emission.toSocket sid _ _ => sid = target
  | Emission.toRoomExceptSender room sender _ _ =>
      decide (target ≠ sender) && inRoom rooms target room
  | Emission.toAll _ _ => true
  | Emission.disconnect _ => false

/-- Whether an emission list delivers to the target socket an event with the
given name whose payload is a message payload with the given message id. -/
def receivesMessage (rooms : Rooms) (ems : List Emission)
    (target event msgId : String) : Bool :=
  ems.any (fun e =>
    deliversTo rooms e target &&
    match e with
    | Emission.toSocket _ ev (Payload.message i _ _ _) => ev = event && i = msgId
    | Emission.toRoomExceptSender _ _ ev (Payload.message i _ _ _) =>
        ev = event && i = msgId
    | Emission.toAll ev (Payload.message i _ _ _) => ev = event && i = msgId
    | _ => false)

/-- Whether an emission list delivers an event with the given name (any
payload) to the target socket. -/
def receivesEvent (rooms : Rooms) (ems : List Emission)
    (target event : String) : Bool :=
  ems.any (fun e =>
    deliversTo rooms e target &&
    match e with
    | Emission.toSocket _ ev _ => ev = event
    | Emission.toRoomExceptSender _ _ ev _ => ev = event
    | Emission.toAll ev _ => ev = event
    | Emission.disconnect _ => false)

/-- Whether the emission list contains an error event emitted to the given
socket. -/
def emitsErrorTo (sid : String) (ems : List Emission) : Bool :=
  ems.any (fun e =>
    match e with
    | Emission.toSocket s ev _ => s = sid && ev = SocketEvents.ERROR
    | _ => false)

/-- Whether the emission list contains no disconnect action. -/
def noDisconnect (ems : List Emission) : Bool :=
  ems.all (fun e =>
    match e with
    | Emission.disconnect _ => false
    | _ => true)

/-- SocketMiddleware.authenticate (socket.middleware.ts lines 15-68), as a
function of the resolved token (handshake.auth.token or the Bearer header),
the jwt.verify collaborator (none models a verification exception, caught as
Authentication failed), and the current time in milliseconds for the explicit
expiry check Date.now() >= decoded.exp * 1000. -/
def SocketMiddleware.authenticate (token : Option String)
    (verify : String → Option TokenPayload) (nowMs : Nat) :
    Except String User :=
  match token with
  | none => Except.error "Authentication token required"
  | some t =>
    match verify t with
    | none => Except.error "Authentication failed"
    | some d =>
      if d.exp * 1000 ≤ nowMs then Except.error "Token expired"
      else Except.ok ⟨d.id, d.email, d.username⟩

/-- A missing, invalid (verification throws), or expired credential. -/
def badCredential (token : Option String)
    (verify : String → Option TokenPayload) (nowMs : Nat) : Prop :=
  token = none ∨
    ∃ t, token = some t ∧
      (verify t = none ∨ ∃ d, verify t = some d ∧ d.exp * 1000 ≤ nowMs)

/-- SocketService.setUserOnline (socket.service.ts lines 43-64): if the socket
has no user, do nothing; otherwise create or refresh the UserStatus record
(adding the socket id to the Set, forcing status online and lastSeen to now)
and record socketId to userId in socketUserMap. -/
def setUserOnline (svc : SocketService) (user : Option User)
    (socketId : String) (now : Nat) : SocketService :=
  match user with
  | none => svc
  | some u =>
    let userId := u.id
    match getKey userId svc.userStatuses with
    | none =>
      { svc with
        userStatuses :=
          setKey userId ⟨userId, "online", {socketId}, now⟩ svc.userStatuses,
        socketUserMap := setKey socketId userId svc.socketUserMap }
    | some st =>
      { svc with
        userStatuses :=
          setKey userId
            { st with
              socketIds := insert socketId st.socketIds,
              status := "online",
              lastSeen := now } svc.userStatuses,
        socketUserMap := setKey socketId userId svc.socketUserMap }

/-- SocketService.setUserOffline (socket.service.ts lines 66-83): if the
socket has no user, do nothing; otherwise remove the socket id from the
user's Set and, only when no live socket ids remain, mark the record offline
and stamp lastSeen; finally remove the socket from socketUserMap. -/
def setUserOffline (svc : SocketService) (user : Option User)
    (socketId : String) (now : Nat) : SocketService :=
  match user with
  | none => svc
  | some u =>
    let userId := u.id
    let svc1 :=
      match getKey userId svc.userStatuses with
      | none => svc
      | some st =>
        let ids := st.socketIds.erase socketId
        let st1 :=
          if ids.card = 0 then
            { st with socketIds := ids, status := "offline", lastSeen := now }
          else
            { st with socketIds := ids }
        { svc with userStatuses := setKey userId st1 svc.userStatuses }
    { svc1 with socketUserMap := delKey socketId svc1.socketUserMap }

/-- SocketService.broadcastUserStatus (socket.service.ts lines 126-151):
unconditionally overwrite the stored status and lastSeen when the user has a
record, then io.emit the status event (status:online or status:offline) and
the general status-change event to every connected socket. -/
def broadcastUserStatus (svc : SocketService) (userId statusValue : String)
    (now : Nat) : SocketService × List Emission :=
  let statusEvent :=
    if statusValue = "online" then SocketEvents.USER_ONLINE
    else SocketEvents.USER_OFFLINE
  let svc1 :=
    match getKey userId svc.userStatuses with
    | none => svc
    | some st =>
      { svc with
        userStatuses :=
          setKey userId { st with status := statusValue, lastSeen := now }
            svc.userStatuses }
  (svc1,
    [Emission.toAll statusEvent (Payload.status userId statusValue),
     Emission.toAll SocketEvents.USER_STATUS_CHANGE
       (Payload.status userId statusValue)])

/-- The connection part of setupConnectionHandling (socket.service.ts lines
86-105): when the socket carries a user, emit the authenticated event to it,
join its personal user:{id} room, and broadcastUserStatus online. -/
def onConnectionEstablished (svc : SocketService) (rooms : Rooms)
    (sid : String) (user : Option User) (now : Nat) :
    SocketService × Rooms × List Emission :=
  match user with
  | none => (svc, rooms, [])
  | some u =>
    let hello :=
      Emission.toSocket sid SocketEvents.AUTHENTICATED
        (Payload.auth u.id u.username sid)
    let rooms1 := joinRoom rooms sid (userRoom u.id)
    let res := broadcastUserStatus svc u.id "online" now
    (res.1, rooms1, hello :: res.2)

/-- A full connection attempt through the middleware chain of setupMiddleware
(socket.service.ts lines 25-41) and then the connect handler: if
authentication called next(error), the connection is rejected and nothing
runs; otherwise the second middleware runs setUserOnline and the connect
handler fires. -/
def attemptConnection (svc : SocketService) (rooms : Rooms)
    (auth : Except String User) (sid : String) (now : Nat) :
    SocketService × Rooms × List Emission :=
  match auth with
  | Except.error _ => (svc, rooms, [])
  | Except.ok u =>
    let svc1 := setUserOnline svc (some u) sid now
    onConnectionEstablished svc1 rooms sid (some u) now

/-- The disconnect handler installed by setupConnectionHandling
(socket.service.ts lines 107-115): when the socket carries a user, run
setUserOffline and then unconditionally broadcastUserStatus offline. -/
def serviceOnDisconnect (svc : SocketService) (sid : String)
    (user : Option User) (now : Nat) : SocketService × List Emission :=
  match user with
  | none => (svc, [])
  | some u =>
    let svc1 := setUserOffline svc (some u) sid now
    broadcastUserStatus svc1 u.id "offline" now

/-- The prisma chatParticipant table: the set of (chatId, userId) pairs for
which chatParticipant.findUnique on chatId_userId returns a row. -/
abbrev Participants := List (String × String)

/-- SocketHandlers.handleTypingStart (handlers lines 79-112): unauthenticated
sockets get an UNAUTHORIZED error; a thrown prisma error is caught and
surfaced as INTERNAL_ERROR; a missing participant row gives NOT_PARTICIPANT;
otherwise the typing:start event is broadcast to the chat room excluding the
sender. -/
def handleTypingStart (user : Option User) (chatId : String)
    (parts : Participants) (dbFail : Option String) (sid : String) :
    List Emission :=
  match user with
  | none => [errEmission sid SocketErrorCodes.UNAUTHORIZED "Not authenticated"]
  | some u =>
    match dbFail with
    | some e => [errEmission sid SocketErrorCodes.INTERNAL_ERROR e]
    | none =>
      if (chatId, u.id) ∈ parts then
        [Emission.toRoomExceptSender (chatRoom chatId) sid
          SocketEvents.TYPING_START (Payload.typing chatId (some u.id))]
      else
        [errEmission sid SocketErrorCodes.NOT_PARTICIPANT
          "Not a chat participant"]

/-- SocketHandlers.handleTypingEnd (handlers lines 114-127): no
authentication and no participant check; the typing:end event is broadcast to
the chat room excluding the sender with the optional user id; an exception
thrown inside the try block is only logged (no emission at all). -/
def handleTypingEnd (user : Option User) (chatId : String)
    (thrown : Option String) (sid : String) : List Emission :=
  match thrown with
  | some _ => []
  | none =>
    [Emission.toRoomExceptSender (chatRoom chatId) sid
      SocketEvents.TYPING_END (Payload.typing chatId (user.map User.id))]

/-- SocketHandlers.handleChatRead (handlers lines 129-155): an
unauthenticated socket silently returns; the prisma update either succeeds or
throws, and a thrown error is only logged.  In every branch the handler emits
nothing. -/
def handleChatRead (user : Option User) (chatId : String)
    (messageId : Option String) (dbFail : Option String) : List Emission :=
  match user with
  | none => []
  | some _ =>
    match dbFail with
    | some _ => []
    | none => []

/-- SocketHandlers.handleSubscribeToChat (handlers lines 157-186):
unauthenticated gives UNAUTHORIZED, a thrown prisma error gives
INTERNAL_ERROR, a missing participant row gives NOT_PARTICIPANT - in all three
cases the room state is untouched; otherwise the socket joins chat:{chatId}
and gets a subscribed:chat acknowledgement. -/
def handleSubscribeToChat (user : Option User) (chatId : String)
    (parts : Participants) (dbFail : Option String) (sid : String)
    (rooms : Rooms) : Rooms × List Emission :=
  match user with
  | none =>
    (rooms,
      [errEmission sid SocketErrorCodes.UNAUTHORIZED "Not authenticated"])
  | some u =>
    match dbFail with
    | some e => (rooms, [errEmission sid SocketErrorCodes.INTERNAL_ERROR e])
    | none =>
      if (chatId, u.id) ∈ parts then
        (joinRoom rooms sid (chatRoom chatId),
          [Emission.toSocket sid "subscribed:chat" (Payload.subscribed chatId)])
      else
        (rooms,
          [errEmission sid SocketErrorCodes.NOT_PARTICIPANT
            "Not a chat participant"])

/-- SocketHandlers.handleUnsubscribeFromChat (handlers lines 188-191):
socket.leave of chat:{chatId} and a log line, nothing else - no check, no
emission. -/
def handleUnsubscribeFromChat (user : Option User) (chatId : String)
    (sid : String) (rooms : Rooms) : Rooms × List Emission :=
  (leaveRoom rooms sid (chatRoom chatId), [])

/-- The data of a message:new client event (metadata dropped). -/
structure MessageNewData where
  chatId : String
  content : String
  msgType : String
deriving DecidableEq

/-- A response passed to the client-supplied acknowledgement callback of
message:new. -/
structure CbResponse where
  success : Bool
  messageId : Option String
  errMsg : Option String
deriving DecidableEq

/-- SocketHandlers.handleMessageNew (full handler file lines 78-253).  Inputs
beyond the event data: whether the client supplied a callback, the
chatParticipant table, the list of existing chat ids (prisma chat.findUnique),
an optional thrown prisma error (caught by the surrounding try), and the id
the database assigns to the created message.  Output: the emissions performed
and the list of callback responses delivered.  On success the handler sends
the callback acknowledgement, broadcasts chat:updated to the room and to the
sender, then broadcasts message:created to the room and to the sender. -/
def handleMessageNew (user : Option User) (data : MessageNewData)
    (hasCb : Bool) (parts : Participants) (chats : List String)
    (dbFail : Option String) (newMsgId : String) (sid : String) :
    List Emission × List CbResponse :=
  match user with
  | none =>
    ([errEmission sid SocketErrorCodes.UNAUTHORIZED "Not authenticated"],
      if hasCb then [⟨false, none, some "Not authenticated"⟩] else [])
  | some u =>
    match dbFail with
    | some e =>
      ([errEmission sid SocketErrorCodes.INTERNAL_ERROR e],
        if hasCb then [⟨false, none, some e⟩] else [])
    | none =>
      if (data.chatId, u.id) ∈ parts then
        if data.chatId ∈ chats then
          let msgPayload :=
            Payload.message newMsgId data.chatId u.id data.content
          let chatPayload := Payload.chatUpdated data.chatId newMsgId
          ([Emission.toRoomExceptSender (chatRoom data.chatId) sid
              "chat:updated" chatPayload,
            Emission.toSocket sid "chat:updated" chatPayload,
            Emission.toRoomExceptSender (chatRoom data.chatId) sid
              "message:created" msgPayload,
            Emission.toSocket sid "message:created" msgPayload],
            if hasCb then [⟨true, some newMsgId, none⟩] else [])
        else
          ([errEmission sid SocketErrorCodes.CHAT_NOT_FOUND "Chat not found"],
            if hasCb then [⟨false, none, some "Chat not found"⟩] else [])
      else
        ([errEmission sid SocketErrorCodes.NOT_PARTICIPANT
            "Not a chat participant"],
          if hasCb then [⟨false, none, some "Not a chat participant"⟩] else [])

/-- Whether a message:new request fails (any of the four failure paths of
handleMessageNew). -/
def msgNewFails (user : Option User) (chatId : String)
    (parts : Participants) (chats : List String)
    (dbFail : Option String) : Bool :=
  match user with
  | none => true
  | some u =>
    dbFail.isSome || decide ((chatId, u.id) ∉ parts) ||
      decide (chatId ∉ chats)

/-- Whether a typing:start request fails. -/
def typingStartFails (user : Option User) (chatId : String)
    (parts : Participants) (dbFail : Option String) : Bool :=
  match user with
  | none => true
  | some u => dbFail.isSome || decide ((chatId, u.id) ∉ parts)

/-- Whether a subscribe:chat request fails (same conditions as
typing:start). -/
def subscribeFails (user : Option User) (chatId : String)
    (parts : Participants) (dbFail : Option String) : Bool :=
  typingStartFails user chatId parts dbFail

/-- One registry operation: a setUserOnline or setUserOffline call for an
authenticated socket, identified by its socket id and its user id. -/
inductive PresenceOp where
  | goOnline (socketId userId : String) (now : Nat)
  | goOffline (socketId userId : String) (now : Nat)
deriving DecidableEq

/-- The socket id an operation concerns. -/
def PresenceOp.socketId : PresenceOp → String
  | goOnline s _ _ => s
  | goOffline s _ _ => s

/-- The user id an operation concerns. -/
def PresenceOp.userId : PresenceOp → String
  | goOnline _ u _ => u
  | goOffline _ u _ => u

/-- Apply one registry operation to the service state.  The email and
username of the socket user play no role in setUserOnline / setUserOffline,
so they are filled with empty strings. -/
def applyOp (svc : SocketService) : PresenceOp → SocketService
  | PresenceOp.goOnline s u n => setUserOnline svc (some ⟨u, "", ""⟩) s n
  | PresenceOp.goOffline s u n => setUserOffline svc (some ⟨u, "", ""⟩) s n

/-- Run a sequence of registry operations from a starting state. -/
def runOps (svc : SocketService) (ops : List PresenceOp) : SocketService :=
  ops.foldl applyOp svc

/-- Mutual consistency of the two registry maps: socketUserMap sends a socket
id to a user id exactly when that socket id sits in the socketIds set stored
for that user in userStatuses. -/
def registryConsistent (svc : SocketService) : Prop :=
  ∀ sid uid, getKey sid svc.socketUserMap = some uid ↔
    ∃ st, getKey uid svc.userStatuses = some st ∧ sid ∈ st.socketIds

/-- Auxiliary invariant: every socket id stored in a user's socketIds set is
owned by that user according to the fixed socket-to-user assignment f (a
socket.io socket carries one fixed user for its whole life). -/
def socketsOwned (f : String → String) (svc : SocketService) : Prop :=
  ∀ uid st, getKey uid svc.userStatuses = some st →
    ∀ sid ∈ st.socketIds, f sid = uid

/-- A trace is consistent with a socket-to-user assignment when every
operation pairs a socket id with the user that socket belongs to. -/
def traceConsistent (f : String → String) (ops : List PresenceOp) : Prop :=
  ∀ op ∈ ops, op.userId = f op.socketId

/-- Concrete two-device scenario: the user whose id is A. -/
def scenarioUserA : User := ⟨"A", "a@example.com", "alice"⟩

/-- State, rooms and emissions after user A connects from socket X at time 0,
starting from a fresh service. -/
def scenarioAfterX : SocketService × Rooms × List Emission :=
  attemptConnection SocketService.init [] (Except.ok scenarioUserA) "X" 0

/-- State, rooms and emissions after user A additionally connects from socket
Y at time 1. -/
def scenarioAfterY : SocketService × Rooms × List Emission :=
  attemptConnection scenarioAfterX.1 scenarioAfterX.2.1
    (Except.ok scenarioUserA) "Y" 1

/-- State and emissions after socket X disconnects at time 2 while socket Y
is still connected. -/
def scenarioAfterXDisconnect : SocketService × List Emission :=
  serviceOnDisconnect scenarioAfterY.1 "X" (some scenarioUserA) 2

theorem getKey_delKey_self {β : Type} (k : String) (m : List (String × β)) :
    getKey k (delKey k m) = none := by
  induction m with
  | nil => rfl
  | cons p rest ih => by_cases h : p.1 = k <;> simp [delKey, getKey, h, ih]

theorem getKey_delKey_ne {β : Type} {k k' : String} (m : List (String × β))
    (h : k' ≠ k) : getKey k' (delKey k m) = getKey k' m := by
  induction m with
  | nil => rfl
  | cons p rest ih =>
    by_cases h1 : p.1 = k <;> by_cases h2 : p.1 = k' <;>
      simp_all [delKey, getKey]

theorem getKey_setKey_self {β : Type} (k : String) (v : β)
    (m : List (String × β)) : getKey k (setKey k v m) = some v := by
  simp [setKey, getKey]

theorem getKey_setKey_ne {β : Type} {k k' : String} (v : β)
    (m : List (String × β)) (h : k' ≠ k) :
    getKey k' (setKey k v m) = getKey k' m := by
  have h2 : ¬ k = k' := fun e => h e.symm
  simp [setKey, getKey, h2, getKey_delKey_ne m h]

theorem setUserOnline_preserves (f : String → String) (svc : SocketService)
    (s u : String) (n : Nat) (hop : u = f s)
    (hreg : registryConsistent svc) (hown : socketsOwned f svc) :
    registryConsistent (setUserOnline svc (some ⟨u, "", ""⟩) s n) ∧
      socketsOwned f (setUserOnline svc (some ⟨u, "", ""⟩) s n) := by
  cases hus : getKey u svc.userStatuses with
  | none =>
    constructor
    · intro sid uid
      simp only [setUserOnline, hus]
      by_cases hsid : sid = s
      · subst hsid
        rw [getKey_setKey_self]
        by_cases huid : u = uid
        · subst huid
          rw [getKey_setKey_self]
          simp
        · have huid2 : uid ≠ u := fun e => huid e.symm
          constructor
          · intro h
            exact absurd (Option.some.inj h).symm huid2
          · rintro ⟨st, hst, hmem⟩
            rw [getKey_setKey_ne _ _ huid2] at hst
            exact absurd ((hown uid st hst sid hmem).symm.trans hop.symm) huid2
      · rw [getKey_setKey_ne _ _ hsid]
        by_cases huid : u = uid
        · subst huid
          rw [getKey_setKey_self]
          simp only [Option.some.injEq]
          constructor
          · intro h
            obtain ⟨st, hst, _⟩ := (hreg sid u).mp h
            rw [hus] at hst
            exact absurd hst (by simp)
          · rintro ⟨st, hst, hmem⟩
            rw [← hst] at hmem
            simp at hmem
            exact absurd hmem hsid
        · have huid2 : uid ≠ u := fun e => huid e.symm
          rw [getKey_setKey_ne _ _ huid2]
          exact hreg sid uid
    · intro uid st hst sid hmem
      simp only [setUserOnline, hus] at hst
      by_cases huid : u = uid
      · subst huid
        rw [getKey_setKey_self] at hst
        rw [← Option.some.inj hst] at hmem
        simp at hmem
        rw [hmem]
        exact hop.symm
      · have huid2 : uid ≠ u := fun e => huid e.symm
        rw [getKey_setKey_ne _ _ huid2] at hst
        exact hown uid st hst sid hmem
  | some st0 =>
    constructor
    · intro sid uid
      simp only [setUserOnline, hus]
      by_cases hsid : sid = s
      · subst hsid
        rw [getKey_setKey_self]
        by_cases huid : u = uid
        · subst huid
          rw [getKey_setKey_self]
          simp
        · have huid2 : uid ≠ u := fun e => huid e.symm
          constructor
          · intro h
            exact absurd (Option.some.inj h).symm huid2
          · rintro ⟨st, hst, hmem⟩
            rw [getKey_setKey_ne _ _ huid2] at hst
            exact absurd ((hown uid st hst sid hmem).symm.trans hop.symm) huid2
      · rw [getKey_setKey_ne _ _ hsid]
        by_cases huid : u = uid
        · subst huid
          rw [getKey_setKey_self]
          simp only [Option.some.injEq]
          constructor
          · intro h
            obtain ⟨st, hst, hmem⟩ := (hreg sid u).mp h
            rw [hus] at hst
            refine ⟨_, rfl, ?_⟩
            simp only [Finset.mem_insert]
            exact Or.inr ((Option.some.inj hst) ▸ hmem)
          · rintro ⟨st, hst, hmem⟩
            rw [← hst] at hmem
            simp only [Finset.mem_insert] at hmem
            rcases hmem with h1 | h1
            · exact absurd h1 hsid
            · exact (hreg sid u).mpr ⟨st0, hus, h1⟩
        · have huid2 : uid ≠ u := fun e => huid e.symm
          rw [getKey_setKey_ne _ _ huid2]
          exact hreg sid uid
    · intro uid st hst sid hmem
      simp only [setUserOnline, hus] at hst
      by_cases huid : u = uid
      · subst huid
        rw [getKey_setKey_self] at hst
        rw [← Option.some.inj hst] at hmem
        simp only [Finset.mem_insert] at hmem
        rcases hmem with h1 | h1
        · rw [h1]; exact hop.symm
        · exact hown u st0 hus sid h1
      · have huid2 : uid ≠ u := fun e => huid e.symm
        rw [getKey_setKey_ne _ _ huid2] at hst
        exact hown uid st hst sid hmem

theorem setUserOffline_preserves (f : String → String) (svc : SocketService)
    (s u : String) (n : Nat) (hop : u = f s)
    (hreg : registryConsistent svc) (hown : socketsOwned f svc) :
    registryConsistent (setUserOffline svc (some ⟨u, "", ""⟩) s n) ∧
      socketsOwned f (setUserOffline svc (some ⟨u, "", ""⟩) s n) := by
  cases hus : getKey u svc.userStatuses with
  | none =>
    constructor
    · intro sid uid
      simp only [setUserOffline, hus]
      by_cases hsid : sid = s
      · subst hsid
        rw [getKey_delKey_self]
        constructor
        · intro h; exact absurd h (by simp)
        · rintro ⟨st, hst, hmem⟩
          have huid : uid = u :=
            ((hown uid st hst sid hmem).symm.trans hop.symm)
          rw [huid, hus] at hst
          exact absurd hst (by simp)
      · rw [getKey_delKey_ne _ hsid]
        exact hreg sid uid
    · intro uid st hst sid hmem
      simp only [setUserOffline, hus] at hst
      exact hown uid st hst sid hmem
  | some st0 =>
    have hids : ∀ (c : Prop) (hdec : Decidable c),
        (@ite _ c hdec
          { st0 with socketIds := st0.socketIds.erase s,
                     status := "offline", lastSeen := n }
          { st0 with socketIds := st0.socketIds.erase s }).socketIds =
          st0.socketIds.erase s := by
      intro c hdec
      by_cases hc : c <;> simp [hc]
    constructor
    · intro sid uid
      simp only [setUserOffline, hus]
      by_cases hsid : sid = s
      · subst hsid
        rw [getKey_delKey_self]
        constructor
        · intro h; exact absurd h (by simp)
        · rintro ⟨st, hst, hmem⟩
          by_cases huid : u = uid
          · subst huid
            rw [getKey_setKey_self] at hst
            rw [← Option.some.inj hst, hids] at hmem
            exact absurd (Finset.mem_erase.mp hmem).1 (by simp)
          · have huid2 : uid ≠ u := fun e => huid e.symm
            rw [getKey_setKey_ne _ _ huid2] at hst
            exact absurd ((hown uid st hst sid hmem).symm.trans hop.symm) huid2
      · rw [getKey_delKey_ne _ hsid]
        by_cases huid : u = uid
        · subst huid
          rw [getKey_setKey_self]
          simp only [Option.some.injEq]
          constructor
          · intro h
            obtain ⟨st, hst, hmem⟩ := (hreg sid u).mp h
            rw [hus] at hst
            refine ⟨_, rfl, ?_⟩
            rw [hids]
            exact Finset.mem_erase.mpr ⟨hsid, (Option.some.inj hst) ▸ hmem⟩
          · rintro ⟨st, hst, hmem⟩
            rw [← hst, hids] at hmem
            exact (hreg sid u).mpr ⟨st0, hus, (Finset.mem_erase.mp hmem).2⟩
        · have huid2 : uid ≠ u := fun e => huid e.symm
          rw [getKey_setKey_ne _ _ huid2]
          exact hreg sid uid
    · intro uid st hst sid hmem
      simp only [setUserOffline, hus] at hst
      by_cases huid : u = uid
      · subst huid
        rw [getKey_setKey_self] at hst
        rw [← Option.some.inj hst, hids] at hmem
        exact hown u st0 hus sid (Finset.mem_erase.mp hmem).2
      · have huid2 : uid ≠ u := fun e => huid e.symm
        rw [getKey_setKey_ne _ _ huid2] at hst
        exact hown uid st hst sid hmem

theorem runOps_preserves (f : String → String) (ops : List PresenceOp) :
    ∀ svc : SocketService, traceConsistent f ops →
      registryConsistent svc → socketsOwned f svc →
      registryConsistent (runOps svc ops) ∧ socketsOwned f (runOps svc ops) := by
  induction ops with
  | nil => intro svc _ h1 h2; exact ⟨h1, h2⟩
  | cons op rest ih =>
    intro svc htr h1 h2
    have hop : op.userId = f op.socketId := htr op (List.mem_cons_self op rest)
    have htr2 : traceConsistent f rest :=
      fun o ho => htr o (List.mem_cons_of_mem op ho)
    have hstep : registryConsistent (applyOp svc op) ∧
        socketsOwned f (applyOp svc op) := by
      cases op with
      | goOnline s u n =>
        exact setUserOnline_preserves f svc s u n hop h1 h2
      | goOffline s u n =>
        exact setUserOffline_preserves f svc s u n hop h1 h2
    exact ih (applyOp svc op) htr2 hstep.1 hstep.2

theorem inRoom_eq_false_iff (rooms : Rooms) (sid room : String) :
    inRoom rooms sid room = false ↔
      ∀ p ∈ rooms, p.1 = room → sid ∉ p.2 := by
  simp [inRoom, List.any_eq_false]

theorem leaveRoom_not_joined (sid room : String) :
    ∀ rooms : Rooms, inRoom rooms sid room = false →
      leaveRoom rooms sid room = rooms := by
  intro rooms
  induction rooms with
  | nil => intro _; rfl
  | cons p rest ih =>
    intro h
    rw [inRoom_eq_false_iff] at h
    have h1 : inRoom rest sid room = false := by
      rw [inRoom_eq_false_iff]
      intro q hq
      exact h q (List.mem_cons_of_mem p hq)
    have h2 := ih h1
    simp only [leaveRoom, List.map_cons] at h2 ⊢
    by_cases hp : p.1 = room
    · have hmem : sid ∉ p.2 := h p (List.mem_cons_self p rest) hp
      rw [if_pos hp, Finset.erase_eq_of_not_mem hmem, h2]
    · rw [if_neg hp, h2]

theorem leaveRoom_idem (sid room : String) : ∀ rooms : Rooms,
    leaveRoom (leaveRoom rooms sid room) sid room =
      leaveRoom rooms sid room := by
  intro rooms
  induction rooms with
  | nil => rfl
  | cons p rest ih =>
    simp only [leaveRoom, List.map_cons] at ih ⊢
    by_cases hp : p.1 = room <;> simp [hp, Finset.erase_idem, ih]

/-- C10: after any sequence of setUserOnline and setUserOffline operations
(each socket id belonging to one fixed user, as a socket.io socket carries one
user for its whole life), the two registry maps stay mutually consistent:
socketUserMap maps a socket id s to a user id u exactly when s is an element
of the socketIds set stored in userStatuses for u. -/
theorem registry_maps_stay_consistent (f : String → String)
    (ops : List PresenceOp) (htr : traceConsistent f ops) :
    registryConsistent (runOps SocketService.init ops) := by
  have h1 : registryConsistent SocketService.init := by
    intro sid uid
    constructor
    · intro h
      exact absurd h (by simp [SocketService.init, getKey])
    · rintro ⟨st, hst, _⟩
      exact absurd hst (by simp [SocketService.init, getKey])
  have h2 : socketsOwned f SocketService.init := by
    intro uid st hst
    exact absurd hst (by simp [SocketService.init, getKey])
  exact (runOps_preserves f ops SocketService.init htr h1 h2).1

/-- Witness for C10: a concrete consistent trace where user u1 opens sockets
s1 and s2 and then closes s1. -/
theorem registry_maps_stay_consistent_witness :
    traceConsistent (fun _ => "u1")
      [PresenceOp.goOnline "s1" "u1" 0, PresenceOp.goOnline "s2" "u1" 1,
        PresenceOp.goOffline "s1" "u1" 2] ∧
    registryConsistent (runOps SocketService.init
      [PresenceOp.goOnline "s1" "u1" 0, PresenceOp.goOnline "s2" "u1" 1,
        PresenceOp.goOffline "s1" "u1" 2]) := by
  have htr : traceConsistent (fun _ => "u1")
      [PresenceOp.goOnline "s1" "u1" 0, PresenceOp.goOnline "s2" "u1" 1,
        PresenceOp.goOffline "s1" "u1" 2] := by
    intro op hop
    simp only [List.mem_cons, List.not_mem_nil, or_false] at hop
    rcases hop with rfl | rfl | rfl <;> rfl
  exact ⟨htr, registry_maps_stay_consistent _ _ htr⟩

/-- C4: a connection attempt with a missing, invalid or expired credential is
rejected by the authentication middleware: no registry entry is created, no
event (in particular no status:online) is emitted, and the presence state and
rooms are unchanged. -/
theorem bad_credential_rejected_unchanged (svc : SocketService)
    (rooms : Rooms) (token : Option String)
    (verify : String → Option TokenPayload) (nowMs now2 : Nat) (sid : String)
    (h : badCredential token verify nowMs) :
    (∃ e, SocketMiddleware.authenticate token verify nowMs =
        Except.error e) ∧
      attemptConnection svc rooms
          (SocketMiddleware.authenticate token verify nowMs) sid now2 =
        (svc, rooms, []) := by
  have herr : ∃ e, SocketMiddleware.authenticate token verify nowMs =
      Except.error e := by
    rcases h with h | ⟨t, rfl, h⟩
    · rw [h]
      exact ⟨"Authentication token required", rfl⟩
    · rcases h with hv | ⟨d, hv, hexp⟩
      · exact ⟨"Authentication failed",
          by simp [SocketMiddleware.authenticate, hv]⟩
      · exact ⟨"Token expired",
          by simp [SocketMiddleware.authenticate, hv, hexp]⟩
  obtain ⟨e, he⟩ := herr
  refine ⟨⟨e, he⟩, ?_⟩
  rw [he]
  rfl

/-- Witness for C4: a token-less connection attempt against a fresh service
leaves everything unchanged. -/
theorem bad_credential_rejected_unchanged_witness :
    badCredential none (fun _ => none) 0 ∧
      attemptConnection SocketService.init []
          (SocketMiddleware.authenticate none (fun _ => none) 0) "s1" 5 =
        (SocketService.init, [], []) :=
  ⟨Or.inl rfl,
    (bad_credential_rejected_unchanged SocketService.init [] none
      (fun _ => none) 0 5 "s1" (Or.inl rfl)).2⟩

/-- C5: subscribe:chat for an authenticated socket that the participant
lookup does not confirm emits a NOT_PARTICIPANT error and leaves the room
state (the connection's joined rooms / transport subscriptions) unchanged. -/
theorem subscribe_not_participant_unchanged (u : User) (chatId sid : String)
    (parts : Participants) (rooms : Rooms)
    (hnp : (chatId, u.id) ∉ parts) :
    handleSubscribeToChat (some u) chatId parts none sid rooms =
      (rooms,
        [errEmission sid SocketErrorCodes.NOT_PARTICIPANT
          "Not a chat participant"]) := by
  simp [handleSubscribeToChat, hnp]

/-- Witness for C5: a non-participant subscribe attempt on a concrete
state. -/
theorem subscribe_not_participant_unchanged_witness :
    ("42", "A") ∉ ([("7", "A"), ("42", "B")] : Participants) ∧
      handleSubscribeToChat (some ⟨"A", "a@example.com", "alice"⟩) "42"
          [("7", "A"), ("42", "B")] none "s1" [] =
        ([],
          [errEmission "s1" SocketErrorCodes.NOT_PARTICIPANT
            "Not a chat participant"]) :=
  ⟨by decide,
    subscribe_not_participant_unchanged ⟨"A", "a@example.com", "alice"⟩
      "42" "s1" [("7", "A"), ("42", "B")] [] (by decide)⟩

/-- C8: unsubscribe (leave) is idempotent: it never emits anything (so in
particular no error), leaving a room the socket has not joined is a no-op on
the room state, and leaving twice equals leaving once. -/
theorem unsubscribe_idempotent (user : Option User) (chatId sid : String)
    (rooms : Rooms) :
    (handleUnsubscribeFromChat user chatId sid rooms).2 = [] ∧
    (inRoom rooms sid (chatRoom chatId) = false →
      (handleUnsubscribeFromChat user chatId sid rooms).1 = rooms) ∧
    handleUnsubscribeFromChat user chatId sid
        (handleUnsubscribeFromChat user chatId sid rooms).1 =
      handleUnsubscribeFromChat user chatId sid rooms := by
  refine ⟨rfl, ?_, ?_⟩
  · intro h
    exact leaveRoom_not_joined sid (chatRoom chatId) rooms h
  · simp only [handleUnsubscribeFromChat]
    rw [leaveRoom_idem]

/-- Witness for C8: leaving an unjoined room on a concrete room state. -/
theorem unsubscribe_idempotent_witness :
    inRoom [("chat:7", ({"z"} : Finset String))] "s1" (chatRoom "42") =
        false ∧
      (handleUnsubscribeFromChat none "42" "s1"
          [("chat:7", ({"z"} : Finset String))]).1 =
        [("chat:7", ({"z"} : Finset String))] :=
  ⟨by decide,
    (unsubscribe_idempotent none "42" "s1"
      [("chat:7", ({"z"} : Finset String))]).2.1 (by decide)⟩

/-- C9: the typing:end handler broadcasts to the chat room for every socket,
authenticated or not, with no participant check, while typing:start rejects
an unauthenticated socket with UNAUTHORIZED and a non-participant with
NOT_PARTICIPANT. -/
theorem typing_end_skips_checks (muser : Option User) (u : User)
    (chatId sid : String) (parts : Participants)
    (hnp : (chatId, u.id) ∉ parts) :
    handleTypingEnd muser chatId none sid =
      [Emission.toRoomExceptSender (chatRoom chatId) sid
        SocketEvents.TYPING_END (Payload.typing chatId (muser.map User.id))] ∧
    handleTypingStart none chatId parts none sid =
      [errEmission sid SocketErrorCodes.UNAUTHORIZED "Not authenticated"] ∧
    handleTypingStart (some u) chatId parts none sid =
      [errEmission sid SocketErrorCodes.NOT_PARTICIPANT
        "Not a chat participant"] := by
  refine ⟨rfl, rfl, ?_⟩
  simp [handleTypingStart, hnp]

/-- Witness for C9: an unauthenticated socket still gets its typing:end
broadcast. -/
theorem typing_end_skips_checks_witness :
    ("42", "A") ∉ ([] : Participants) ∧
      handleTypingEnd none "42" none "s1" =
        [Emission.toRoomExceptSender (chatRoom "42") "s1"
          SocketEvents.TYPING_END (Payload.typing "42" none)] :=
  ⟨by decide,
    (typing_end_skips_checks none ⟨"A", "a@example.com", "alice"⟩ "42" "s1"
      [] (by decide)).1⟩

/-- C7: for an authenticated participant, typing:start is delivered to
exactly the other subscribers of the chat room: a socket receives it iff it
is joined to chat:{chatId} and is not the emitting socket; in particular the
emitting socket itself never receives it. -/
theorem typing_start_not_echoed (u : User) (chatId sid t : String)
    (parts : Participants) (rooms : Rooms)
    (hp : (chatId, u.id) ∈ parts) :
    (receivesEvent rooms (handleTypingStart (some u) chatId parts none sid) t
        SocketEvents.TYPING_START = true ↔
      (t ≠ sid ∧ inRoom rooms t (chatRoom chatId) = true)) ∧
    receivesEvent rooms (handleTypingStart (some u) chatId parts none sid)
        sid SocketEvents.TYPING_START = false := by
  have hems : handleTypingStart (some u) chatId parts none sid =
      [Emission.toRoomExceptSender (chatRoom chatId) sid
        SocketEvents.TYPING_START (Payload.typing chatId (some u.id))] := by
    simp [handleTypingStart, hp]
  rw [hems]
  constructor
  · simp [receivesEvent, deliversTo, and_comm]
  · simp [receivesEvent, deliversTo]

/-- Witness for C7: concrete room with subscribers sA and sB; sB receives the
typing:start of sA, sA does not. -/
theorem typing_start_not_echoed_witness :
    ("42", "A") ∈ ([("42", "A")] : Participants) ∧
      receivesEvent [(chatRoom "42", ({"sA", "sB"} : Finset String))]
          (handleTypingStart (some ⟨"A", "a@example.com", "alice"⟩) "42"
            [("42", "A")] none "sA") "sA" SocketEvents.TYPING_START =
        false :=
  ⟨by decide,
    (typing_start_not_echoed ⟨"A", "a@example.com", "alice"⟩ "42" "sA" "sA"
      [("42", "A")] [(chatRoom "42", ({"sA", "sB"} : Finset String))]
      (by decide)).2⟩

/-- C6: when a subscribed participant successfully publishes message:new, a
socket receives the resulting message:created event carrying the new message
id exactly when it is subscribed to chat:{chatId} at publish time - the
sender's own socket included (it is subscribed by hypothesis), and nobody
outside the room. -/
theorem message_created_fanout (u : User)
    (chatId content msgType sid t msgId : String) (hasCb : Bool)
    (parts : Participants) (chats : List String) (rooms : Rooms)
    (hp : (chatId, u.id) ∈ parts) (hc : chatId ∈ chats)
    (hsub : inRoom rooms sid (chatRoom chatId) = true) :
    receivesMessage rooms
        (handleMessageNew (some u) ⟨chatId, content, msgType⟩ hasCb parts
          chats none msgId sid).1 t "message:created" msgId = true ↔
      inRoom rooms t (chatRoom chatId) = true := by
  have hems : (handleMessageNew (some u) ⟨chatId, content, msgType⟩ hasCb
      parts chats none msgId sid).1 =
      [Emission.toRoomExceptSender (chatRoom chatId) sid "chat:updated"
        (Payload.chatUpdated chatId msgId),
       Emission.toSocket sid "chat:updated" (Payload.chatUpdated chatId msgId),
       Emission.toRoomExceptSender (chatRoom chatId) sid "message:created"
        (Payload.message msgId chatId u.id content),
       Emission.toSocket sid "message:created"
        (Payload.message msgId chatId u.id content)] := by
    simp [handleMessageNew, hp, hc]
  rw [hems]
  by_cases ht : t = sid
  · subst ht
    simp [receivesMessage, deliversTo, hsub]
  · have ht2 : ¬ (sid = t) := fun e => ht e.symm
    simp [receivesMessage, deliversTo, ht, ht2]

/-- Witness for C6: room chat:42 holds sA and sB; sB receives message m1
published by sA. -/
theorem message_created_fanout_witness :
    ("42", "A") ∈ ([("42", "A"), ("42", "B")] : Participants) ∧
      "42" ∈ ["42"] ∧
      inRoom [(chatRoom "42", ({"sA", "sB"} : Finset String))] "sA"
          (chatRoom "42") = true ∧
      receivesMessage [(chatRoom "42", ({"sA", "sB"} : Finset String))]
          (handleMessageNew (some ⟨"A", "a@example.com", "alice"⟩)
            ⟨"42", "hello", "TEXT"⟩ true [("42", "A"), ("42", "B")] ["42"]
            none "m1" "sA").1 "sB" "message:created" "m1" = true :=
  ⟨by decide, by decide, by decide,
    (message_created_fanout ⟨"A", "a@example.com", "alice"⟩ "42" "hello"
      "TEXT" "sA" "sB" "m1" true [("42", "A"), ("42", "B")] ["42"]
      [(chatRoom "42", ({"sA", "sB"} : Finset String))] (by decide)
      (by decide) (by decide)).mpr (by decide)⟩

/-- C1: the claim states that when connection X of user A disconnects while
connection Y is still live, the presence record stays online and no
status:offline event is emitted.  The code violates this: the disconnect
handler calls broadcastUserStatus(userId, offline) unconditionally, which
both emits status:offline and overwrites the stored status, even though
setUserOffline had correctly kept the record online because the socketIds
set was still non-empty.  This theorem evaluates the failing scenario: after
X disconnects, a status:offline event was emitted and the record reads
offline although socket Y is still registered. -/
theorem disconnect_broadcasts_offline_despite_live_sibling :
    Emission.toAll SocketEvents.USER_OFFLINE (Payload.status "A" "offline") ∈
        scenarioAfterXDisconnect.2 ∧
      (getKey "A" scenarioAfterXDisconnect.1.userStatuses).map
          UserStatus.status = some "offline" ∧
      (getKey "A" scenarioAfterXDisconnect.1.userStatuses).map
          UserStatus.socketIds = some ({"Y"} : Finset String) := by
  decide

/-- C2 counterexample: user A is already online through socket X (status
online in the registry), yet the connection of the second socket Y broadcasts
another status:online event - the claim says no duplicate broadcast
happens. -/
theorem second_connection_rebroadcasts_online :
    (getKey "A" scenarioAfterX.1.userStatuses).map UserStatus.status =
        some "online" ∧
      Emission.toAll SocketEvents.USER_ONLINE (Payload.status "A" "online") ∈
        scenarioAfterY.2.2 ∧
      Emission.toAll SocketEvents.USER_STATUS_CHANGE
          (Payload.status "A" "online") ∈ scenarioAfterY.2.2 := by
  decide

/-- C2 amended: registering a subsequent connection for an already-online
user refreshes the presence record (the socket id is added, status stays
online, lastSeen is refreshed) and broadcasts the status:online and
status-change events again, exactly as for a first connection. -/
theorem subsequent_connection_refreshes_and_rebroadcasts
    (svc : SocketService) (rooms : Rooms) (u : User) (sid : String)
    (now : Nat) (st : UserStatus)
    (hst : getKey u.id svc.userStatuses = some st)
    (hon : st.status = "online") :
    getKey u.id
        (attemptConnection svc rooms (Except.ok u) sid now).1.userStatuses =
      some { st with socketIds := insert sid st.socketIds,
                     status := "online", lastSeen := now } ∧
    Emission.toAll SocketEvents.USER_ONLINE (Payload.status u.id "online") ∈
      (attemptConnection svc rooms (Except.ok u) sid now).2.2 ∧
    Emission.toAll SocketEvents.USER_STATUS_CHANGE
        (Payload.status u.id "online") ∈
      (attemptConnection svc rooms (Except.ok u) sid now).2.2 := by
  simp only [attemptConnection, setUserOnline, hst, onConnectionEstablished,
    broadcastUserStatus, getKey_setKey_self]
  simp [getKey_setKey_self]

/-- Witness for the amended C2: concrete service where A is online via X;
connecting Y updates the record and rebroadcasts. -/
theorem subsequent_connection_refreshes_and_rebroadcasts_witness :
    getKey "A" (SocketService.mk [("A", ⟨"A", "online", {"X"}, 0⟩)]
        [("X", "A")]).userStatuses = some ⟨"A", "online", {"X"}, 0⟩ ∧
      Emission.toAll SocketEvents.USER_ONLINE (Payload.status "A" "online") ∈
        (attemptConnection
          (SocketService.mk [("A", ⟨"A", "online", {"X"}, 0⟩)] [("X", "A")])
          [] (Except.ok ⟨"A", "a@example.com", "alice"⟩) "Y" 1).2.2 :=
  ⟨by decide,
    (subsequent_connection_refreshes_and_rebroadcasts
      (SocketService.mk [("A", ⟨"A", "online", {"X"}, 0⟩)] [("X", "A")]) []
      ⟨"A", "a@example.com", "alice"⟩ "Y" 1 ⟨"A", "online", {"X"}, 0⟩
      (by decide) (by decide)).2.1⟩

/-- C3 counterexample: a chat:read operation whose database update throws is
only logged - the handler emits nothing at all, so the failure is never
reported back to the originating connection via an error event, contrary to
the claim. -/
theorem chat_read_failure_unreported :
    handleChatRead (some ⟨"A", "a@example.com", "alice"⟩) "42" none
        (some "db down") = [] ∧
      emitsErrorTo "s1"
          (handleChatRead (some ⟨"A", "a@example.com", "alice"⟩) "42" none
            (some "db down")) = false := by
  decide

/-- C3 amended: failures of message:new, typing:start and subscribe:chat are
reported back to the originating connection via an error event (message:new
also answers a supplied callback with success false), while failures of
chat:read and typing:end are only logged and never reported; no handler ever
disconnects the session. -/
theorem operation_failures_reported_except_read_and_typing_end
    (muser : Option User) (chatId content msgType sid msgId : String)
    (hasCb : Bool) (parts : Participants) (chats : List String)
    (dbFail : Option String) (rooms : Rooms) (messageId : Option String)
    (thrown : String) :
    (msgNewFails muser chatId parts chats dbFail = true →
      emitsErrorTo sid
          (handleMessageNew muser ⟨chatId, content, msgType⟩ hasCb parts
            chats dbFail msgId sid).1 = true ∧
        (hasCb = true →
          ∃ r ∈ (handleMessageNew muser ⟨chatId, content, msgType⟩ hasCb
            parts chats dbFail msgId sid).2, r.success = false)) ∧
    (typingStartFails muser chatId parts dbFail = true →
      emitsErrorTo sid (handleTypingStart muser chatId parts dbFail sid) =
        true) ∧
    (subscribeFails muser chatId parts dbFail = true →
      emitsErrorTo sid
          (handleSubscribeToChat muser chatId parts dbFail sid rooms).2 =
        true ∧
        (handleSubscribeToChat muser chatId parts dbFail sid rooms).1 =
          rooms) ∧
    handleChatRead muser chatId messageId dbFail = [] ∧
    handleTypingEnd muser chatId (some thrown) sid = [] ∧
    noDisconnect (handleMessageNew muser ⟨chatId, content, msgType⟩ hasCb
        parts chats dbFail msgId sid).1 = true ∧
    noDisconnect (handleTypingStart muser chatId parts dbFail sid) = true ∧
    noDisconnect (handleTypingEnd muser chatId dbFail sid) = true ∧
    noDisconnect (handleSubscribeToChat muser chatId parts dbFail sid
        rooms).2 = true ∧
    noDisconnect (handleChatRead muser chatId messageId dbFail) = true := by
  cases muser with
  | none =>
    cases dbFail <;> cases hasCb <;>
      simp [msgNewFails, typingStartFails, subscribeFails, handleMessageNew,
        handleTypingStart, handleSubscribeToChat, handleChatRead,
        handleTypingEnd, emitsErrorTo, noDisconnect, errEmission]
  | some u =>
    cases dbFail with
    | some e =>
      cases hasCb <;>
        simp [msgNewFails, typingStartFails, subscribeFails, handleMessageNew,
          handleTypingStart, handleSubscribeToChat, handleChatRead,
          handleTypingEnd, emitsErrorTo, noDisconnect, errEmission]
    | none =>
      by_cases hp : (chatId, u.id) ∈ parts
      · by_cases hc : chatId ∈ chats
        · cases hasCb <;>
            simp [msgNewFails, typingStartFails, subscribeFails,
              handleMessageNew, handleTypingStart, handleSubscribeToChat,
              handleChatRead, handleTypingEnd, emitsErrorTo, noDisconnect,
              errEmission, hp, hc]
        · cases hasCb <;>
            simp [msgNewFails, typingStartFails, subscribeFails,
              handleMessageNew, handleTypingStart, handleSubscribeToChat,
              handleChatRead, handleTypingEnd, emitsErrorTo, noDisconnect,
              errEmission, hp, hc]
      · cases hasCb <;>
          simp [msgNewFails, typingStartFails, subscribeFails,
            handleMessageNew, handleTypingStart, handleSubscribeToChat,
            handleChatRead, handleTypingEnd, emitsErrorTo, noDisconnect,
            errEmission, hp]

/-- Witness for the amended C3: an unauthenticated message:new with a
callback is reported via an error event, and a concrete failing chat:read is
silent. -/
theorem operation_failures_reported_witness :
    msgNewFails none "42" [] [] none = true ∧
      emitsErrorTo "s1"
          (handleMessageNew none ⟨"42", "hello", "TEXT"⟩ true [] [] none
            "m1" "s1").1 = true ∧
      handleChatRead none "42" none none = [] :=
  ⟨by decide,
    ((operation_failures_reported_except_read_and_typing_end none "42"
        "hello" "TEXT" "s1" "m1" true [] [] none [] none "boom").1
      (by decide)).1,
    (operation_failures_reported_except_read_and_typing_end none "42"
        "hello" "TEXT" "s1" "m1" true [] [] none [] none "boom").2.2.2.1⟩
